import Mathlib

/-!
Verification of the terraform-provider-netbird repository's specification
against a shallow Lean embedding of its Go source.

The embedding mirrors the `internal/provider` package:
* Terraform framework values (`types.String`, `types.Bool`, `types.Int32`,
  `types.Int64`, `types.List` of strings) are modelled as three-state
  inductives (null / unknown / value), matching the framework's semantics:
  `ValueString` on a null or unknown string returns `""`, and
  `ValueStringPointer` returns `nil` exactly on the null string.
* The HTTP client wrapper (`client.go`) is modelled by `Client`,
  `NewClient`, `doRequest` and `doRequestAuthorization`.
* Handler bodies are modelled as functions of the single HTTP response the
  operation receives, with JSON decoding abstracted by an explicit parse
  argument where the decoded shape matters.

Diagnostics are lists of (summary, detail) pairs; every diagnostic the
modelled code paths produce is added via `AddError`, so a non-empty list is
exactly `HasError`.
-/

namespace Netbird

/-- Terraform framework string value (`basetypes.StringValue`): three-state
null / unknown / known value. -/
inductive TFString where
  | null
  | unknown
  | value (s : String)
deriving Repr, DecidableEq

/-- Go `StringValue.ValueString()`: the known value, `""` for null and
unknown strings. -/
def TFString.valueString : TFString → String
  | .null => ""
  | .unknown => ""
  | .value s => s

/-- Go `StringValue.ValueStringPointer()`: `nil` for the null string,
otherwise a pointer to the stored value (which is `""` for unknown). -/
def TFString.valueStringPointer : TFString → Option String
  | .null => none
  | .unknown => some ""
  | .value s => some s

/-- Terraform framework bool value (`basetypes.BoolValue`). -/
inductive TFBool where
  | null
  | unknown
  | value (b : Bool)
deriving Repr, DecidableEq

/-- Go `BoolValue.ValueBool()`: `false` for null and unknown. -/
def TFBool.valueBool : TFBool → Bool
  | .null => false
  | .unknown => false
  | .value b => b

/-- Terraform framework 32-bit integer value (`basetypes.Int32Value`).
Machine integers are modelled as `Int`; no arithmetic is performed on them
anywhere in the embedded code, so no overflow wrapping arises. -/
inductive TFInt32 where
  | null
  | unknown
  | value (i : Int)
deriving Repr, DecidableEq

/-- Go `Int32Value.ValueInt32()`: `0` for null and unknown. -/
def TFInt32.valueInt32 : TFInt32 → Int
  | .null => 0
  | .unknown => 0
  | .value i => i

/-- Terraform framework 64-bit integer value (`basetypes.Int64Value`). -/
inductive TFInt64 where
  | null
  | unknown
  | value (i : Int)
deriving Repr, DecidableEq

/-- Terraform framework list value of strings (`basetypes.ListValue` with
element type `types.StringType`; every list attribute in the embedded
resources is a list of strings). In this typed embedding the elements are
Lean strings, so the dynamic element-type-mismatch failure branch of the Go
converters is unrepresentable. -/
inductive TFList where
  | null
  | unknown
  | value (elems : List String)
deriving Repr, DecidableEq

/-- One framework diagnostic: the modelled code paths only ever call
`AddError(summary, detail)`. -/
structure Diag where
  summary : String
  detail : String
deriving Repr, DecidableEq

/-- Go `diag.Diagnostics.HasError()`: in the modelled paths every appended
diagnostic is an error, so it holds exactly when the list is non-empty. -/
def diagsHasError (diags : List Diag) : Bool :=
  !diags.isEmpty

/-! ## HTTP client wrapper (client.go) -/

/-- The part of Go's `http.Client` the source configures: the timeout,
in seconds (`60 * time.Second`). -/
structure GoHttpClient where
  timeoutSeconds : Nat
deriving Repr, DecidableEq

/-- The provider's `Client` struct from client.go. -/
structure Client where
  baseUrl : String
  bearerToken : String
  accessToken : String
  httpClient : GoHttpClient
deriving Repr, DecidableEq

/-- `NewClient` from client.go: stores the three strings and constructs an
`http.Client` with `Timeout: 60 * time.Second`. -/
def NewClient (baseURL : String) (bearerToken : String) (accessToken : String) : Client :=
  { baseUrl := baseURL
    bearerToken := bearerToken
    accessToken := accessToken
    httpClient := { timeoutSeconds := 60 } }

/-- An HTTP response as received by `doRequest` (after `httpClient.Do` and
`io.ReadAll` both succeed): a status code and the full body text. -/
structure HttpResponse where
  status : Nat
  body : String
deriving Repr, DecidableEq

/-- The response-handling tail of `Client.doRequest` from client.go, as a
function of the response it receives (transport and read errors abort
earlier and are outside every claim, which quantifies over received
responses). The `Option` on the success body models Go byte-slice nil-ness:
`io.ReadAll` never returns a nil slice, so a success is always `some body`;
on `resp.StatusCode >= 400` the result is `fmt.Errorf("%s", body)`, an
error whose message is exactly the body text. -/
def doRequest (resp : HttpResponse) : Except String (Option String) :=
  if 400 ≤ resp.status then Except.error resp.body else Except.ok (some resp.body)

/-- The header-setting prefix of `Client.doRequest`: the value of the
`Authorization` header after the two `req.Header.Set` calls, starting from
a request with no `Authorization` header (all call sites build fresh
requests and set at most `Content-Type`). `Header.Set` replaces any
previous value, so the header is a single optional value. -/
def doRequestAuthorization (c : Client) : Option String :=
  let h : Option String := none
  let h := if c.bearerToken != "" then some ("Bearer " ++ c.bearerToken) else h
  if c.accessToken != "" then some ("Token " ++ c.accessToken) else h

/-! ## Provider root (provider.go) -/

/-- The provider configuration block (`NetbirdProviderModel`). -/
structure NetbirdProviderModel where
  endpoint : TFString
  bearerToken : TFString
  accessToken : TFString
deriving Repr, DecidableEq

/-- The three `os.Getenv` results read by `Configure`; an unset variable
reads as `""`. -/
structure EnvVars where
  netbirdBearerToken : String
  netbirdAccessToken : String
  netbirdEndpoint : String
deriving Repr, DecidableEq

/-- Result of `NetbirdProvider.Configure`: the resolved strings, the
diagnostics, and the shared client stored into both `DataSourceData` and
`ResourceData`. -/
structure ConfigureResult where
  endpoint : String
  bearerToken : String
  accessToken : String
  diags : List Diag
  client : Client
deriving Repr, DecidableEq

/-- Detail text of the missing-credentials diagnostic in `Configure`. -/
def missingCredentialsDetail : String :=
  "The provider must be configured with either the `bearer_token` or the `access_token` to authenticate to Netbird. Set one of these values in the configuration. If either is already set, ensure the value is not empty. If this was not expected, please check for NETBIRD_* environment variables. See the provider documentation for more information"

/-- Detail text of the conflicting-credentials diagnostic in `Configure`. -/
def conflictingCredentialsDetail : String :=
  "The provider must be configured with either the `bearer_token` or the `access_token` to authenticate to Netbird. Only set one of these values in the configuration. If this was not expected, please check for NETBIRD_* environment variables. See the provider documentation for more information"

/-- `NetbirdProvider.Configure` from provider.go, after the config block
has been decoded successfully: reads the three environment variables,
overrides each with the configuration field when that field's value string
is non-empty, defaults the endpoint to `https://api.netbird.io` when it is
still empty, adds an error diagnostic when both credentials are empty and
another when both are non-empty, and constructs the shared client. -/
def netbirdProviderConfigure (env : EnvVars) (data : NetbirdProviderModel) : ConfigureResult :=
  let bearerToken := env.netbirdBearerToken
  let accessToken := env.netbirdAccessToken
  let endpoint := env.netbirdEndpoint
  let endpoint := if data.endpoint.valueString != "" then data.endpoint.valueString else endpoint
  let endpoint := if endpoint == "" then "https://api.netbird.io" else endpoint
  let bearerToken :=
    if data.bearerToken.valueString != "" then data.bearerToken.valueString else bearerToken
  let accessToken :=
    if data.accessToken.valueString != "" then data.accessToken.valueString else accessToken
  let diags :=
    if bearerToken == "" && accessToken == "" then
      [{ summary := "Bearer token and access token missing."
         detail := missingCredentialsDetail }]
    else []
  let diags := diags ++
    (if bearerToken != "" && accessToken != "" then
      [{ summary := "Conflicting arguments: Bearer token and access token."
         detail := conflictingCredentialsDetail }]
    else [])
  { endpoint := endpoint
    bearerToken := bearerToken
    accessToken := accessToken
    diags := diags
    client := NewClient endpoint bearerToken accessToken }

/-! ## Shared field-mapping converters (converters.go) -/

/-- `derefString`: a nil string pointer becomes the null string, otherwise
the pointed-to value. -/
def derefString (input : Option String) : TFString :=
  match input with
  | none => TFString.null
  | some s => TFString.value s

/-- `derefStringSlice`: a nil slice pointer becomes nil, otherwise the
pointed-to slice (nil and empty Go slices both read as `[]` here; no
embedded claim distinguishes them). -/
def derefStringSlice (s : Option (List String)) : List String :=
  match s with
  | none => []
  | some xs => xs

/-- `convertStringSliceToListValue` from converters.go: wraps each string,
returns the null list when the built element list is empty, otherwise a
known list value (`types.ListValue` with matching string elements never
errors, so the diagnostics are always empty). -/
def convertStringSliceToListValue (strings : List String) : TFList × List Diag :=
  let stringValueList := strings
  if stringValueList.length = 0 then (TFList.null, [])
  else (TFList.value stringValueList, [])

/-- `convertListToStringSlice` from the policy resource file: null or
unknown lists give the empty slice; otherwise each element is unwrapped. In
this typed embedding every element is a string value, so the dynamic
type-mismatch error branch is unrepresentable and the diagnostics are
always empty. -/
def convertListToStringSlice (list : TFList) : List String × List Diag :=
  match list with
  | .null => ([], [])
  | .unknown => ([], [])
  | .value elems => (elems, [])

/-- `nullStringToEmptyString` from converters.go: any string whose value
string is `""` becomes the null string; every other string is returned
unchanged. -/
def nullStringToEmptyString (input : TFString) : TFString :=
  if input.valueString == "" then TFString.null else input

/-- The description assignment of `readNameserverGroupIntoModel` in the
nameserver group resource file:
`nullStringToEmptyString(derefString(&responseData.Description))`, where
the API description is a plain (non-pointer) string, so the address-of is
always a non-nil pointer. -/
def readNameserverGroupDescription (apiDescription : String) : TFString :=
  nullStringToEmptyString (derefString (some apiDescription))

/-! ## Policy rule conversion (policy_resource.go) -/

/-- `ResourceModel`: a source or destination resource in a policy rule. -/
structure ResourceModel where
  id : TFString
  type : TFString
deriving Repr, DecidableEq

/-- `PortRangeModel`: a port range in a policy rule. -/
structure PortRangeModel where
  start : TFInt32
  stop : TFInt32
deriving Repr, DecidableEq

/-- `PolicyRuleModel`: an individual rule within a policy. (`stop` stands
for the source's `End` field, a reserved word in Lean.) -/
structure PolicyRuleModel where
  id : TFString
  name : TFString
  description : TFString
  enabled : TFBool
  action : TFString
  bidirectional : TFBool
  protocol : TFString
  ports : TFList
  portRanges : List PortRangeModel
  sources : TFList
  destinations : TFList
  sourceResource : Option ResourceModel
  destinationResource : Option ResourceModel
deriving Repr, DecidableEq

/-- Wire-format `netbirdApi.Resource`. -/
structure ApiResource where
  id : String
  type : String
deriving Repr, DecidableEq

/-- Wire-format `netbirdApi.RulePortRange` (`stop` stands for `End`). -/
structure ApiRulePortRange where
  start : Int
  stop : Int
deriving Repr, DecidableEq

/-- Wire-format `netbirdApi.PolicyRuleUpdate`. The pointer-to-slice fields
(`Ports`, `PortRanges`, `Sources`, `Destinations`) are always assigned
addresses of local slices in the source, hence plain lists here. -/
structure ApiPolicyRuleUpdate where
  name : String
  description : Option String
  enabled : Bool
  action : String
  bidirectional : Bool
  protocol : String
  ports : List String
  portRanges : List ApiRulePortRange
  sources : List String
  sourceResource : Option ApiResource
  destinations : List String
  destinationResource : Option ApiResource
deriving Repr, DecidableEq

/-- `convertToRulesResourcesApiModel`: nil pointer maps to nil, otherwise
the two fields are unwrapped. Never produces diagnostics. -/
def convertToRulesResourcesApiModel (modelResource : Option ResourceModel) :
    Option ApiResource × List Diag :=
  match modelResource with
  | none => (none, [])
  | some m => (some { id := m.id.valueString, type := m.type.valueString }, [])

/-- `convertToRulesPortRangesApiModel`: unwraps each port range. The Go
parameter is a pointer to the rule's slice and is never nil at the call
site. Never produces diagnostics. -/
def convertToRulesPortRangesApiModel (modelRanges : List PortRangeModel) :
    List ApiRulePortRange × List Diag :=
  (modelRanges.map (fun pr => { start := pr.start.valueInt32, stop := pr.stop.valueInt32 }),
   [])

/-- `convertToRulesUpdateApiModel` from the policy resource file, exactly as
written: the Go loop body ends in `return apiRules, diags`, so at most the
first input rule is converted; and the `destinationResource` local is
assigned `convertToRulesResourcesApiModel(modelRule.SourceResource)` — the
source resource, not the destination resource. None of the inner
converters can produce diagnostics in this typed embedding, so every
`HasError` early return is dead and the returned diagnostics are empty. -/
def convertToRulesUpdateApiModel (modelRules : Option (List PolicyRuleModel)) :
    List ApiPolicyRuleUpdate × List Diag :=
  match modelRules with
  | none => ([], [])
  | some [] => ([], [])
  | some (modelRule :: _) =>
      let ports := (convertListToStringSlice modelRule.ports).1
      let portRanges := (convertToRulesPortRangesApiModel modelRule.portRanges).1
      let sources := (convertListToStringSlice modelRule.sources).1
      let sourceResource := (convertToRulesResourcesApiModel modelRule.sourceResource).1
      let destinations := (convertListToStringSlice modelRule.destinations).1
      let destinationResource := (convertToRulesResourcesApiModel modelRule.sourceResource).1
      ([{ name := modelRule.name.valueString
          description := modelRule.description.valueStringPointer
          enabled := modelRule.enabled.valueBool
          action := modelRule.action.valueString
          bidirectional := modelRule.bidirectional.valueBool
          protocol := modelRule.protocol.valueString
          ports := ports
          portRanges := portRanges
          sources := sources
          sourceResource := sourceResource
          destinations := destinations
          destinationResource := destinationResource }],
       [])

/-! ## Network resource read (network_resource.go) -/

/-- `NetworkResourceModel` from the network resource file. -/
structure NetworkResourceModel where
  id : TFString
  name : TFString
  description : TFString
  routers : TFList
  routingPeersCount : TFInt64
  resources : TFList
  policies : TFList
deriving Repr, DecidableEq

/-- The fields of wire-format `netbirdApi.Network` used by
`readIntoModel`. -/
structure NetworkApi where
  name : String
  description : Option String
  routingPeersCount : Int
  routers : List String
  resources : List String
  policies : List String
deriving Repr, DecidableEq

/-- The model update performed by `NetworkResource.readIntoModel` after a
successful JSON decode: copy the name; update the description only when
the response carries a non-empty description or the local value string is
non-empty (inside that branch a nil response description writes back into
the response, leaving the model untouched); then copy the counters and
lists (`types.ListValueFrom` on string slices never errors). -/
def networkUpdateFromApi (data : NetworkResourceModel) (rd : NetworkApi) :
    NetworkResourceModel :=
  let data := { data with name := TFString.value rd.name }
  let respHasNonEmptyDescription : Bool :=
    match rd.description with
    | some s => s != ""
    | none => false
  let data :=
    if respHasNonEmptyDescription || (data.description.valueString != "") then
      match rd.description with
      | some s => { data with description := TFString.value s }
      | none => data
    else data
  { data with
      routingPeersCount := TFInt64.value rd.routingPeersCount
      routers := TFList.value rd.routers
      resources := TFList.value rd.resources
      policies := TFList.value rd.policies }

/-- `NetworkResource.readIntoModel` as a function of the `doRequest` result
for its single GET and an explicit JSON decoder `parse` standing for
`json.Unmarshal` into `netbirdApi.Network`. A `doRequest` error adds the
"Error fetching network" diagnostic and returns; an `ok none` (nil body)
would clear the ID; an `ok` body is decoded and merged. -/
def networkReadIntoModel (dr : Except String (Option String))
    (parse : String → Except String NetworkApi)
    (data : NetworkResourceModel) : NetworkResourceModel × List Diag :=
  match dr with
  | .error e => (data, [{ summary := "Error fetching network", detail := e }])
  | .ok none => ({ data with id := TFString.null }, [])
  | .ok (some body) =>
      match parse body with
      | .error e => (data, [{ summary := "Error parsing response", detail := e }])
      | .ok rd => (networkUpdateFromApi data rd, [])

/-! ## Delete operations (group_resource.go, dns_settings_resource.go) -/

/-- An outgoing HTTP request as the delete handlers build one: method, URL,
and for the DNS settings handler the marshalled `DNSSettings` payload. -/
structure HttpRequestSpec where
  method : String
  url : String
  dnsSettingsBody : Option (List String)
deriving Repr, DecidableEq

/-- `GroupResourceModel` from the group resource file. -/
structure GroupResourceModel where
  id : TFString
  name : TFString
  peers : TFList
  peersCount : TFInt64
  resourcesCount : TFInt64
  issued : TFString
deriving Repr, DecidableEq

/-- `DnsSettingsResourceModel` from the DNS settings resource file. -/
structure DnsSettingsResourceModel where
  id : TFString
  disabledManagementGroups : TFList
deriving Repr, DecidableEq

/-- `GroupResource.Delete` after the prior state has been decoded: issue a
single DELETE to `/api/groups/{id}` through the shared client, add a
diagnostic on failure, and remove the resource from state (the `Bool`)
only on success. -/
def groupDelete (baseUrl : String) (data : GroupResourceModel)
    (resp : HttpResponse) : List HttpRequestSpec × List Diag × Bool :=
  let req : HttpRequestSpec :=
    { method := "DELETE"
      url := baseUrl ++ "/api/groups/" ++ data.id.valueString
      dnsSettingsBody := none }
  match doRequest resp with
  | .error e => ([req], [{ summary := "Error deleting network", detail := e }], false)
  | .ok _ => ([req], [], true)

/-- `DnsSettingsResource.Delete` after the prior state has been decoded:
marshal a `DNSSettings` with an empty `DisabledManagementGroups` and issue
a single PUT to `/api/dns/settings` (not a DELETE, and not keyed by the
entity ID), add a diagnostic on failure, and remove the resource from
state only on success. -/
def dnsSettingsDelete (baseUrl : String) (data : DnsSettingsResourceModel)
    (resp : HttpResponse) : List HttpRequestSpec × List Diag × Bool :=
  let req : HttpRequestSpec :=
    { method := "PUT"
      url := baseUrl ++ "/api/dns/settings"
      dnsSettingsBody := some [] }
  match data, doRequest resp with
  | _, .error e => ([req], [{ summary := "Error updating network", detail := e }], false)
  | _, .ok _ => ([req], [], true)

/-! ## Concrete fixtures used by counterexamples and witnesses -/

/-- A decoder fixture that always fails; the paths exercised with it never
reach decoding. -/
def parseNetworkUnused : String → Except String NetworkApi :=
  fun _ => Except.error "unused"

/-- A concrete network model whose ID is a known value. -/
def sampleNetworkModel : NetworkResourceModel :=
  { id := TFString.value "net-1"
    name := TFString.value "old-name"
    description := TFString.null
    routers := TFList.null
    routingPeersCount := TFInt64.null
    resources := TFList.null
    policies := TFList.null }

/-- A concrete policy rule with distinct source and destination
resources. -/
def samplePolicyRule1 : PolicyRuleModel :=
  { id := TFString.value "r1"
    name := TFString.value "rule-1"
    description := TFString.value "first"
    enabled := TFBool.value true
    action := TFString.value "accept"
    bidirectional := TFBool.value true
    protocol := TFString.value "tcp"
    ports := TFList.value ["80"]
    portRanges := []
    sources := TFList.value ["g1"]
    destinations := TFList.value ["g2"]
    sourceResource := some { id := TFString.value "src-id", type := TFString.value "host" }
    destinationResource := some { id := TFString.value "dst-id", type := TFString.value "host" } }

/-- A second concrete policy rule. -/
def samplePolicyRule2 : PolicyRuleModel :=
  { id := TFString.value "r2"
    name := TFString.value "rule-2"
    description := TFString.value "second"
    enabled := TFBool.value false
    action := TFString.value "drop"
    bidirectional := TFBool.value false
    protocol := TFString.value "udp"
    ports := TFList.value ["53"]
    portRanges := []
    sources := TFList.value ["g3"]
    destinations := TFList.value ["g4"]
    sourceResource := none
    destinationResource := some { id := TFString.value "dst2", type := TFString.value "host" } }

/-- A concrete group model with a known ID. -/
def sampleGroupModel : GroupResourceModel :=
  { id := TFString.value "grp-1"
    name := TFString.value "Test Group"
    peers := TFList.null
    peersCount := TFInt64.null
    resourcesCount := TFInt64.null
    issued := TFString.null }

/-- A concrete DNS settings model with the hard-coded ID the handler
assigns. -/
def sampleDnsSettingsModel : DnsSettingsResourceModel :=
  { id := TFString.value "dns-settings"
    disabledManagementGroups := TFList.value ["g1"] }

/-- A decoder fixture returning a network whose description is absent. -/
def parseNetworkNoDescription : String → Except String NetworkApi :=
  fun _ => Except.ok
    { name := "n"
      description := none
      routingPeersCount := 0
      routers := []
      resources := []
      policies := [] }

/-- A decoder fixture returning a network with a non-empty description. -/
def parseNetworkWithDescription : String → Except String NetworkApi :=
  fun _ => Except.ok
    { name := "n"
      description := some "desc"
      routingPeersCount := 0
      routers := []
      resources := []
      policies := [] }

/-- A concrete environment fixture with both credentials set. -/
def sampleEnvVars : EnvVars :=
  { netbirdBearerToken := "envb"
    netbirdAccessToken := "enva"
    netbirdEndpoint := "" }

/-- A concrete provider configuration with only the bearer token set. -/
def sampleProviderConfig : NetbirdProviderModel :=
  { endpoint := TFString.null
    bearerToken := TFString.value "cfgb"
    accessToken := TFString.null }

/-! ## Claim C1: doRequest failure condition -/

/-- C1 counterexample: the claim says `doRequest` fails exactly on non-2xx
responses, but a 304 response — which is not a 2xx status — is returned as
a success carrying the body, because the code only treats status `>= 400`
as failure. -/
theorem doRequest_non2xx_no_error_counterexample :
    ¬ (200 ≤ 304 ∧ 304 < 300)
    ∧ doRequest { status := 304, body := "not modified" } =
        Except.ok (some "not modified") := by
  constructor
  · decide
  · rfl

/-- C1 (amended): `Client.doRequest` fails exactly on status ≥ 400
responses: for every response it receives, if the status is at least 400 it
returns an error whose message is exactly the response body (and no body),
and if the status is below 400 it returns the body with no error. -/
theorem doRequest_failure_iff (resp : HttpResponse) :
    (400 ≤ resp.status → doRequest resp = Except.error resp.body)
    ∧ (resp.status < 400 → doRequest resp = Except.ok (some resp.body)) := by
  constructor
  · intro h
    simp [doRequest, h]
  · intro h
    simp [doRequest, Nat.not_le.mpr h]

/-- Witness for C1 at a 404 and a 200 response. -/
theorem doRequest_failure_iff_witness :
    doRequest { status := 404, body := "nope" } = Except.error "nope"
    ∧ doRequest { status := 200, body := "yes" } = Except.ok (some "yes") := by
  constructor
  · exact (doRequest_failure_iff { status := 404, body := "nope" }).1 (by decide)
  · exact (doRequest_failure_iff { status := 200, body := "yes" }).2 (by decide)

/-! ## Claim C8: Authorization header precedence -/

/-- C8: `doRequest` sets at most one `Authorization` header: with only a
bearer token it is `Bearer` + token, with an access token it is `Token` +
token (overwriting any bearer header, so the access token takes
precedence), and with neither the header is absent. -/
theorem doRequestAuthorization_precedence (c : Client) :
    (c.bearerToken ≠ "" → c.accessToken = "" →
        doRequestAuthorization c = some ("Bearer " ++ c.bearerToken))
    ∧ (c.accessToken ≠ "" →
        doRequestAuthorization c = some ("Token " ++ c.accessToken))
    ∧ (c.bearerToken = "" → c.accessToken = "" →
        doRequestAuthorization c = none) := by
  refine ⟨?_, ?_, ?_⟩
  · intro hb ha
    simp [doRequestAuthorization, hb, ha]
  · intro ha
    simp [doRequestAuthorization, ha]
  · intro hb ha
    simp [doRequestAuthorization, hb, ha]

/-- Witness for C8: all three cases at concrete clients, including both
tokens set, where the access token wins. -/
theorem doRequestAuthorization_precedence_witness :
    doRequestAuthorization (NewClient "u" "bt" "") = some ("Bearer " ++ "bt")
    ∧ doRequestAuthorization (NewClient "u" "bt" "at") = some ("Token " ++ "at")
    ∧ doRequestAuthorization (NewClient "u" "" "") = none := by
  refine ⟨?_, ?_, ?_⟩
  · exact (doRequestAuthorization_precedence (NewClient "u" "bt" "")).1
      (by decide) (by decide)
  · exact (doRequestAuthorization_precedence (NewClient "u" "bt" "at")).2.1
      (by decide)
  · exact (doRequestAuthorization_precedence (NewClient "u" "" "")).2.2
      (by decide) (by decide)

/-! ## Claim C2: missing remote record on GET -/

/-- C2: the claim (and the code's own dead `responseBody == nil` branch
with its "Handle when resource does not exist" comment) says an absent
remote record clears the ID with no error diagnostic; but `doRequest`
turns a 404 into an error, so `readIntoModel` reports the "Error fetching
network" diagnostic and leaves the stored ID untouched. -/
theorem networkReadIntoModel_absent_get_reports_error :
    networkReadIntoModel (doRequest { status := 404, body := "record not found" })
        parseNetworkUnused sampleNetworkModel =
      (sampleNetworkModel,
       [{ summary := "Error fetching network", detail := "record not found" }])
    ∧ sampleNetworkModel.id = TFString.value "net-1" := by
  constructor
  · rfl
  · rfl

/-! ## Claim C3: provider credential and endpoint resolution -/

/-- C3: `Configure` resolves endpoint, bearer token and access token by
taking the configuration field when non-empty and otherwise the
`NETBIRD_*` environment variable; it adds an error diagnostic exactly when
both credentials resolve non-empty or both resolve empty; and an
empty-resolving endpoint defaults to `https://api.netbird.io`. -/
theorem netbirdProviderConfigure_resolution (env : EnvVars) (data : NetbirdProviderModel) :
    (netbirdProviderConfigure env data).bearerToken =
      (if data.bearerToken.valueString ≠ "" then data.bearerToken.valueString
       else env.netbirdBearerToken)
    ∧ (netbirdProviderConfigure env data).accessToken =
      (if data.accessToken.valueString ≠ "" then data.accessToken.valueString
       else env.netbirdAccessToken)
    ∧ (netbirdProviderConfigure env data).endpoint =
      (let e := if data.endpoint.valueString ≠ "" then data.endpoint.valueString
                else env.netbirdEndpoint
       if e = "" then "https://api.netbird.io" else e)
    ∧ ((netbirdProviderConfigure env data).diags ≠ [] ↔
        ((netbirdProviderConfigure env data).bearerToken = ""
            ∧ (netbirdProviderConfigure env data).accessToken = "")
        ∨ ((netbirdProviderConfigure env data).bearerToken ≠ ""
            ∧ (netbirdProviderConfigure env data).accessToken ≠ "")) := by
  refine ⟨?_, ?_, ?_, ?_⟩ <;>
    by_cases hb : data.bearerToken.valueString = "" <;>
    by_cases ha : data.accessToken.valueString = "" <;>
    by_cases he : data.endpoint.valueString = "" <;>
    by_cases eb : env.netbirdBearerToken = "" <;>
    by_cases ea : env.netbirdAccessToken = "" <;>
    simp_all [netbirdProviderConfigure]

/-- Witness for C3: configuration bearer token overrides the environment,
environment access token is taken when the configuration is empty, the
endpoint defaults, and both-set yields a diagnostic. -/
theorem netbirdProviderConfigure_resolution_witness :
    (netbirdProviderConfigure sampleEnvVars sampleProviderConfig).bearerToken = "cfgb"
    ∧ (netbirdProviderConfigure sampleEnvVars sampleProviderConfig).endpoint
        = "https://api.netbird.io"
    ∧ (netbirdProviderConfigure sampleEnvVars sampleProviderConfig).diags ≠ [] := by
  have h := netbirdProviderConfigure_resolution sampleEnvVars sampleProviderConfig
  have hb : (netbirdProviderConfigure sampleEnvVars sampleProviderConfig).bearerToken
      = "cfgb" := h.1.trans (by decide)
  have ha : (netbirdProviderConfigure sampleEnvVars sampleProviderConfig).accessToken
      = "enva" := h.2.1.trans (by decide)
  refine ⟨hb, h.2.2.1.trans (by decide), ?_⟩
  exact h.2.2.2.mpr (Or.inr ⟨by rw [hb]; decide, by rw [ha]; decide⟩)

/-! ## Claim C4: policy rule conversion -/

/-- C4: the claim says `convertToRulesUpdateApiModel` maps rules one-to-one
with `DestinationResource` converted from the rule's destination resource;
the code's loop returns after its first iteration and assigns the converted
source resource to `destinationResource`, so a two-rule input yields one
output rule whose destination resource is the first rule's source
resource. -/
theorem convertToRulesUpdateApiModel_first_rule_only_and_source_copied :
    ((convertToRulesUpdateApiModel (some [samplePolicyRule1, samplePolicyRule2])).1.length = 1)
    ∧ ((convertToRulesUpdateApiModel (some [samplePolicyRule1, samplePolicyRule2])).1.map
          ApiPolicyRuleUpdate.destinationResource)
        = [some { id := "src-id", type := "host" }] := by
  constructor
  · rfl
  · rfl

/-! ## Claim C5: delete operations -/

/-- C5 counterexample: the DNS settings Delete issues a PUT (to the fixed
settings path, not keyed by the entity identifier), not a DELETE. -/
theorem dnsSettingsDelete_put_counterexample :
    ((dnsSettingsDelete "https://api.netbird.io" sampleDnsSettingsModel
        { status := 200, body := "ok" }).1.map HttpRequestSpec.method) = ["PUT"]
    ∧ ("PUT" : String) ≠ "DELETE" := by
  constructor
  · rfl
  · decide

/-- C5 (amended): the group Delete issues a single DELETE request keyed by
the group's identifier and removes the resource from state exactly on
success; the DNS settings Delete instead issues a single PUT to
`/api/dns/settings` carrying an empty disabled-management-groups payload,
and likewise removes the resource from state exactly on success. -/
theorem delete_operations_spec (baseUrl : String) (g : GroupResourceModel)
    (d : DnsSettingsResourceModel) (resp : HttpResponse) :
    (groupDelete baseUrl g resp).1 =
      [{ method := "DELETE"
         url := baseUrl ++ "/api/groups/" ++ g.id.valueString
         dnsSettingsBody := none }]
    ∧ ((groupDelete baseUrl g resp).2.2 = true ↔ resp.status < 400)
    ∧ (dnsSettingsDelete baseUrl d resp).1 =
      [{ method := "PUT"
         url := baseUrl ++ "/api/dns/settings"
         dnsSettingsBody := some [] }]
    ∧ ((dnsSettingsDelete baseUrl d resp).2.2 = true ↔ resp.status < 400) := by
  by_cases h : 400 ≤ resp.status
  · refine ⟨?_, ?_, ?_, ?_⟩ <;>
      simp [groupDelete, dnsSettingsDelete, doRequest, h, Nat.not_lt.mpr h]
  · refine ⟨?_, ?_, ?_, ?_⟩ <;>
      simp [groupDelete, dnsSettingsDelete, doRequest, h, Nat.not_le.mp h]

/-- Witness for C5 at a success and a failure response. -/
theorem delete_operations_spec_witness :
    (groupDelete "b" sampleGroupModel { status := 200, body := "ok" }).2.2 = true
    ∧ (groupDelete "b" sampleGroupModel { status := 500, body := "boom" }).2.2 = false := by
  constructor
  · exact (delete_operations_spec "b" sampleGroupModel sampleDnsSettingsModel
      { status := 200, body := "ok" }).2.1.mpr (by decide)
  · have h := (delete_operations_spec "b" sampleGroupModel sampleDnsSettingsModel
      { status := 500, body := "boom" }).2.1
    simp only [show ¬ ((500 : Nat) < 400) by decide, iff_false] at h
    exact Bool.not_eq_true _ ▸ h

/-! ## Claim C6: network description null handling -/

/-- C6: in `NetworkResource.readIntoModel`, when the decoded response's
description is absent or empty and the local description's value string is
empty, the local description is left unchanged; when the response carries
a non-empty description, the local description is set to it. -/
theorem networkReadIntoModel_description_rule (body : String)
    (parse : String → Except String NetworkApi) (rd : NetworkApi)
    (data : NetworkResourceModel) (hp : parse body = Except.ok rd) :
    ((rd.description = none ∨ rd.description = some "") →
        data.description.valueString = "" →
        (networkReadIntoModel (doRequest { status := 200, body := body })
            parse data).1.description = data.description)
    ∧ (∀ s, rd.description = some s → s ≠ "" →
        (networkReadIntoModel (doRequest { status := 200, body := body })
            parse data).1.description = TFString.value s) := by
  have hdr : doRequest { status := 200, body := body } = Except.ok (some body) := rfl
  constructor
  · intro hd hloc
    rcases hd with hd | hd <;>
      simp [networkReadIntoModel, hdr, hp, networkUpdateFromApi, hd, hloc]
  · intro s hd hs
    simp [networkReadIntoModel, hdr, hp, networkUpdateFromApi, hd, hs]

/-- Witness for C6: an absent response description leaves the null local
description unchanged, and a response description `"desc"` is stored. -/
theorem networkReadIntoModel_description_rule_witness :
    (networkReadIntoModel (doRequest { status := 200, body := "b" })
        parseNetworkNoDescription sampleNetworkModel).1.description
      = sampleNetworkModel.description
    ∧ (networkReadIntoModel (doRequest { status := 200, body := "b" })
        parseNetworkWithDescription sampleNetworkModel).1.description
      = TFString.value "desc" := by
  constructor
  · exact (networkReadIntoModel_description_rule "b" parseNetworkNoDescription _
      sampleNetworkModel rfl).1 (Or.inl rfl) rfl
  · exact (networkReadIntoModel_description_rule "b" parseNetworkWithDescription _
      sampleNetworkModel rfl).2 "desc" rfl (by decide)

/-! ## Claim C7: shared client with fixed timeout -/

/-- C7: `NewClient` stores the base URL and both tokens and configures the
underlying HTTP client with a fixed 60-second timeout; the provider's
`Configure` routes that same construction into the shared client handed to
every handler, and each modelled operation issues exactly one request
through it. -/
theorem newClient_timeout_and_single_call (b bt act : String) :
    (NewClient b bt act).httpClient.timeoutSeconds = 60
    ∧ (NewClient b bt act).baseUrl = b
    ∧ (NewClient b bt act).bearerToken = bt
    ∧ (NewClient b bt act).accessToken = act
    ∧ (∀ env data,
        (netbirdProviderConfigure env data).client.httpClient.timeoutSeconds = 60)
    ∧ (∀ baseUrl g resp, ((groupDelete baseUrl g resp).1).length = 1)
    ∧ (∀ baseUrl d resp, ((dnsSettingsDelete baseUrl d resp).1).length = 1) := by
  refine ⟨rfl, rfl, rfl, rfl, fun env data => rfl, ?_, ?_⟩
  · intro baseUrl g resp
    simp only [groupDelete]
    split <;> rfl
  · intro baseUrl d resp
    simp only [dnsSettingsDelete]
    split <;> rfl

/-- Witness for C7 at concrete strings. -/
theorem newClient_timeout_and_single_call_witness :
    (NewClient "https://api.netbird.io" "bt" "act").httpClient.timeoutSeconds = 60 :=
  (newClient_timeout_and_single_call "https://api.netbird.io" "bt" "act").1

/-! ## Claim C9: list conversion round trip -/

/-- C9: `convertListToStringSlice` after `convertStringSliceToListValue`
recovers the original element sequence; the forward conversion yields the
null list exactly on the empty slice; consequently the non-null empty list
round-trips to null rather than to itself. -/
theorem convertStringSliceToListValue_roundTrip (s : List String) :
    (convertListToStringSlice (convertStringSliceToListValue s).1).1 = s
    ∧ ((convertStringSliceToListValue s).1 = TFList.null ↔ s = [])
    ∧ (convertStringSliceToListValue (convertListToStringSlice (TFList.value [])).1).1
        = TFList.null := by
  refine ⟨?_, ?_, rfl⟩
  · cases s with
    | nil => rfl
    | cons a t => rfl
  · cases s with
    | nil => simp [convertStringSliceToListValue]
    | cons a t => simp [convertStringSliceToListValue, convertListToStringSlice]

/-- Witness for C9 on a concrete two-element slice. -/
theorem convertStringSliceToListValue_roundTrip_witness :
    (convertListToStringSlice (convertStringSliceToListValue ["a", "b"]).1).1 = ["a", "b"] :=
  (convertStringSliceToListValue_roundTrip ["a", "b"]).1

/-! ## Claim C10: null string normalisation -/

/-- C10: `nullStringToEmptyString` sends every string whose value string is
empty (the null string included) to the null string and leaves every other
string unchanged; hence the nameserver group read stores a null description
when the API description is the empty string. -/
theorem nullStringToEmptyString_spec (x : TFString) :
    (x.valueString = "" → nullStringToEmptyString x = TFString.null)
    ∧ (x.valueString ≠ "" → nullStringToEmptyString x = x)
    ∧ readNameserverGroupDescription "" = TFString.null := by
  refine ⟨?_, ?_, rfl⟩
  · intro h
    simp [nullStringToEmptyString, h]
  · intro h
    simp [nullStringToEmptyString, h]

/-- Witness for C10 at the empty-valued and a non-empty string. -/
theorem nullStringToEmptyString_spec_witness :
    nullStringToEmptyString (TFString.value "") = TFString.null
    ∧ nullStringToEmptyString (TFString.value "x") = TFString.value "x" := by
  constructor
  · exact (nullStringToEmptyString_spec (TFString.value "")).1 rfl
  · exact (nullStringToEmptyString_spec (TFString.value "x")).2.1 (by decide)

end Netbird
